import Mathlib

/-!
# amp-matching-engine: engine dispatch, response queue and websocket messages

A shallow embedding of `engine/engine.go` and `types/wsmsg.go`.

Conventions of the embedding:

* a Go byte slice is a list of naturals below 256 (`Bytes`);
* a Go `error` is `Option String`: `none` is `nil`, `some s` an error with text `s`;
* a `*big.Int` is an `Int`;
* side effects are explicit: each function takes the relevant world and returns
  its result together with the new world;
* library and out-of-file functions (`json.Unmarshal`, `json.Marshal`, the
  handlers `newOrder` and `addOrder`, the rabbitmq helpers, `Order.Process`) are
  parameters of the embedding, so every theorem holds for all their behaviours.
-/

namespace Amp

/-! ## Data model -/

/-- A Go byte slice. -/
abbrev Bytes := List Nat

/-- Modelled from the spec: the type `types.Order` (its declaration, in
`types/order.go`, is not among the sources). Only the attributes that the code
or the data-model section of the spec refer to are kept: the hash, the amount,
the filled amount and the status. -/
structure Order where
  Hash : Nat
  Amount : Int
  FilledAmount : Int
  Status : String
  deriving DecidableEq, Repr

/-- Modelled from the spec: the type `types.Pair`, used only as a key
(its declaration is not among the sources). -/
structure Pair where
  Name : String
  deriving DecidableEq, Repr

/-- The two fields of `rabbitmq.Message` read by `HandleOrders`
(`msg.Type` and `msg.Data`). -/
structure Message where
  MsgType : String
  Data : Bytes
  deriving DecidableEq, Repr

/-! ## `Engine.HandleOrders` -/

/-- A handler invocation made by `HandleOrders`; the trace of these is ghost
state used to state which handlers ran, how often and on what argument. -/
inductive Call where
  | newOrder (o : Order)
  | addOrder (o : Order)
  deriving DecidableEq, Repr

/-- The world `HandleOrders` runs in: `store` is everything the handlers can
read or write (the order book behind `redisConn`), `logged` the lines written
with `log.Print`, `calls` the handler invocations so far, oldest first. -/
structure World (S : Type) where
  store : S
  logged : List String
  calls : List Call
  deriving DecidableEq, Repr

/-- The methods `Engine.newOrder` and `Engine.addOrder`, defined in another file
of package `engine`. Each maps the order and the store to the new store and the
error it returns (if it returns one). -/
structure Handlers (S : Type) where
  newOrder : Order → S → S × Option String
  addOrder : Order → S → S × Option String

/-- The method `Engine.HandleOrders` (engine.go, lines 115-130).
`unmarshal` is `json.Unmarshal` into a fresh `types.Order`. The results of
`e.newOrder(o)` and `e.addOrder(o)` are expression statements: what the handler
returns is dropped, only its effect on the store stays. -/
def HandleOrders {S : Type} (unmarshal : Bytes → Except String Order)
    (h : Handlers S) (msg : Message) (w : World S) : Option String × World S :=
  match unmarshal msg.Data with
  | Except.error err => (some err, { w with logged := w.logged ++ [err] })
  | Except.ok o =>
    if msg.MsgType = "NEW_ORDER" then
      (none, { w with store := (h.newOrder o w.store).1,
                      calls := w.calls ++ [Call.newOrder o] })
    else if msg.MsgType = "ADD_ORDER" then
      (none, { w with store := (h.addOrder o w.store).1,
                      calls := w.calls ++ [Call.addOrder o] })
    else
      (none, w)

/-! ### Fixtures for concrete evaluation -/

/-- The zero value of `types.Order`. -/
def zeroOrder : Order := ⟨0, 0, 0, ""⟩

/-- A decoder fixture that agrees with `encoding/json` on the two inputs used
below: the two bytes of an empty JSON object decode to the zero order, and the
empty input is rejected with the library text for it. Other inputs are
rejected as well. -/
def sampleUnmarshal : Bytes → Except String Order
  | [123, 125] => Except.ok zeroOrder
  | [] => Except.error "unexpected end of JSON input"
  | _ => Except.error "invalid character"

/-- Handler fixtures over a store that is the list of orders received; both
return an error, to exhibit that it is dropped. -/
def sampleHandlers : Handlers (List Order) where
  newOrder := fun o s => (s ++ [o], some "newOrder failed")
  addOrder := fun o s => (o :: s, some "addOrder failed")

/-- The empty world of the fixtures. -/
def emptyWorld : World (List Order) := ⟨[], [], []⟩

/-! ## `InitEngine` and the package-level singleton -/

/-- A heap cell of package `engine`: a `sync.Mutex` or an `Engine` value, whose
two fields are the connection pointer and the address of its mutex. -/
inductive Cell where
  | mutex
  | engine (redisConn : Nat) (mutex : Nat)
  deriving DecidableEq, Repr

/-- The state of package `engine`: `engine` is the package-level variable
`var engine *Engine` (`none` is `nil`, `some a` the address `a`), `heap` the
cells allocated so far, a pointer being an index into it. -/
structure Pkg where
  engine : Option Nat
  heap : List Cell
  deriving DecidableEq, Repr

/-- The function `InitEngine` (engine.go, lines 34-40). A `*redis.RedisConnection`
is a natural number. When the singleton is `nil`, `&sync.Mutex` and then
`&Engine` are allocated at the next two free addresses. The result is the
returned pointer (the value behind the `EngineInterface`), the returned error
and the new package state. -/
def InitEngine (redisConn : Nat) (g : Pkg) : (Nat × Option String) × Pkg :=
  match g.engine with
  | none =>
    let m := g.heap.length
    let e := g.heap.length + 1
    ((e, none), { engine := some e, heap := g.heap ++ [Cell.mutex, Cell.engine redisConn m] })
  | some e => ((e, none), g)

/-- A sequence of `InitEngine` calls, one per connection, returning the results
in call order and the final package state. -/
def initAll : List Nat → Pkg → List (Nat × Option String) × Pkg
  | [], g => ([], g)
  | c :: cs, g =>
    let r := InitEngine c g
    let rest := initAll cs r.2
    (r.1 :: rest.1, rest.2)

/-- The package state at program start: the singleton is `nil`, nothing is
allocated. -/
def startPkg : Pkg := ⟨none, []⟩

/-! ## `Engine.publishEngineResponse` -/

/-- How a call ends: it returns a value to its caller, or the process exits with
a status (`os.Exit`) and nothing is returned. -/
inductive Outcome (α : Type) where
  | returned (v : α)
  | exited (code : Nat)
  deriving DecidableEq, Repr

/-- The value `amqp.Publishing` built by the code: content type and body. -/
structure Publishing where
  ContentType : String
  Body : Bytes
  deriving DecidableEq, Repr

/-- One call of `ch.Publish`: the channel, then the five arguments in order. -/
structure Published where
  channel : String
  exchange : String
  key : String
  mandatory : Bool
  immediate : Bool
  msg : Publishing
  deriving DecidableEq, Repr

/-- The world of the response path: the lines written through package `log`
and the messages handed to the transport with success, oldest first. -/
structure Bus where
  logged : List String
  published : List Published
  deriving DecidableEq, Repr

/-- What `publishEngineResponse` calls outside its file: `json.Marshal`,
`rabbitmq.GetChannel` (the channel it returns, by name), `rabbitmq.GetQueue`
(the `Name` of the queue it returns) and the answer of `ch.Publish` (`none`
when the transport accepts the message). -/
structure Rabbit (R : Type) where
  marshal : R → Except String Bytes
  GetChannel : String → String
  GetQueue : String → String → String
  Publish : Published → Option String

/-- The library function `log.Fatalf`: it writes the line and then calls
`os.Exit(1)`, so it never returns. -/
def logFatalf (line : String) (w : Bus) : Outcome Unit × Bus :=
  (Outcome.exited 1, { w with logged := w.logged ++ [line] })

/-- Sequencing of statements: the rest runs only when the first part returned. -/
def andThen {α β : Type} (x : Outcome α × Bus) (k : α → Bus → Outcome β × Bus) :
    Outcome β × Bus :=
  match x with
  | (Outcome.returned a, w) => k a w
  | (Outcome.exited c, w) => (Outcome.exited c, w)

/-- The method `Engine.publishEngineResponse` (engine.go, lines 44-71). In both
error branches the `return errors.New(...)` statement follows `log.Fatalf`. -/
def publishEngineResponse {R : Type} (env : Rabbit R) (res : R) (w : Bus) :
    Outcome (Option String) × Bus :=
  let ch := env.GetChannel "erPub"
  let qName := env.GetQueue ch "engineResponse"
  match env.marshal res with
  | Except.error err =>
    andThen (logFatalf ("Failed to marshal Engine Response: " ++ err) w)
      (fun _ w1 => (Outcome.returned (some ("Failed to marshal Engine Response: " ++ err)), w1))
  | Except.ok bytes =>
    let p : Published := ⟨ch, "", qName, false, false, ⟨"text/json", bytes⟩⟩
    match env.Publish p with
    | some err =>
      andThen (logFatalf ("Failed to publish order: " ++ err) w)
        (fun _ w1 => (Outcome.returned (some ("Failed to publish order: " ++ err)), w1))
    | none => (Outcome.returned none, { w with published := w.published ++ [p] })

/-- A transport fixture whose connection is closed: marshalling succeeds with
the given bytes, and every `Publish` is refused with an error, as on a closed
channel. -/
def closedRabbit : Rabbit Bytes where
  marshal := fun b => Except.ok b
  GetChannel := fun name => name
  GetQueue := fun _ name => name
  Publish := fun _ => some "channel/connection is not open"

/-- The empty world of the response path. -/
def emptyBus : Bus := ⟨[], []⟩

/-! ## `Engine.SubscribeResponseQueue` -/

/-- The field of `amqp.Delivery` read by the loop. -/
structure Delivery where
  Body : Bytes
  deriving DecidableEq, Repr

/-- The world of the subscriber: the lines written through package `log` and
the arguments of the `go fn(res)` statements executed, in launch order. -/
structure SubWorld (R : Type) where
  logged : List String
  launched : List R
  deriving DecidableEq, Repr

/-- The loop `for d := range msgs` of `SubscribeResponseQueue` (engine.go,
lines 97-105) over the deliveries received. `unmarshal` is `json.Unmarshal`
into a `*Response` variable; `R` is the type of its values. The function gives
the world once the listed deliveries are handled; the goroutines around the loop
never return (the outer one waits on `forever`, line 108) and are not modelled. -/
def consumeLoop {R : Type} (unmarshal : Bytes → Except String R) :
    List Delivery → SubWorld R → SubWorld R
  | [], w => w
  | d :: rest, w =>
    match unmarshal d.Body with
    | Except.error err => consumeLoop unmarshal rest { w with logged := w.logged ++ [err] }
    | Except.ok res => consumeLoop unmarshal rest { w with launched := w.launched ++ [res] }

/-- The decoder seen as a partial function: the decoded value, if any. -/
def decoded {R : Type} (unmarshal : Bytes → Except String R) (d : Delivery) : Option R :=
  match unmarshal d.Body with
  | Except.error _ => none
  | Except.ok res => some res

/-! ## `types.NewOrderAddedWebsocketMessage` -/

/-- The type `WebsocketEvent` (wsmsg.go, lines 29-33); the payload of the
messages built here is an order. -/
structure WebsocketEvent where
  EventType : String
  Hash : String
  Payload : Order
  deriving DecidableEq, Repr

/-- The type `WebsocketMessage` (wsmsg.go, lines 24-27). -/
structure WebsocketMessage where
  Channel : String
  Event : WebsocketEvent
  deriving DecidableEq, Repr

/-- What `wsmsg.go` calls outside its file: the method `Order.Process`, by its
effect on the order, and `common.Hash.Hex`. -/
structure TypesEnv where
  Process : Order → Pair → Order
  Hex : Nat → String

/-- The function `NewOrderAddedWebsocketMessage` (wsmsg.go, lines 80-92);
`filled` is the `int64` argument and `big.NewInt` is exact. -/
def NewOrderAddedWebsocketMessage (env : TypesEnv) (o : Order) (p : Pair) (filled : Int) :
    WebsocketMessage :=
  let o1 := env.Process o p
  let o2 := { o1 with FilledAmount := filled }
  let o3 := { o2 with Status := "OPEN" }
  { Channel := "orders",
    Event := { EventType := "ORDER_ADDED", Hash := env.Hex o3.Hash, Payload := o3 } }

/-- The invariant of an order as the data-model section words it:
`0 ≤ filledAmount ≤ amount`. -/
def OrderInvariant (o : Order) : Prop :=
  0 ≤ o.FilledAmount ∧ o.FilledAmount ≤ o.Amount

instance (o : Order) : Decidable (OrderInvariant o) := by
  unfold OrderInvariant; infer_instance

/-- The status of an order that is not cancelled as the data-model section
words it, a function of the filled amount against the amount: `OPEN` when
nothing is filled, `FILLED` when the whole amount is, `PARTIAL_FILLED`
in between. -/
def statusOf (filledAmount amount : Int) : String :=
  if filledAmount = 0 then "OPEN"
  else if filledAmount < amount then "PARTIAL_FILLED"
  else "FILLED"

/-- A fixture for the out-of-file calls: `Process` leaves the order as it is. -/
def sampleTypesEnv : TypesEnv where
  Process := fun o _ => o
  Hex := fun _ => "0x"

/-- An order of amount 5 with nothing filled. -/
def sampleOrder : Order := ⟨1, 5, 0, ""⟩

/-- A pair fixture. -/
def samplePair : Pair := ⟨"AAA/BBB"⟩

/-! ## Theorems about `Engine.HandleOrders` -/

/-- A failed decode returns the decode error and touches neither the store nor
the trace of handler calls; only the log grows by the error line. -/
lemma HandleOrders_of_error {S : Type} (u : Bytes → Except String Order) (h : Handlers S)
    (msg : Message) (w : World S) (err : String) (hbad : u msg.Data = Except.error err) :
    HandleOrders u h msg w = (some err, { w with logged := w.logged ++ [err] }) := by
  simp [HandleOrders, hbad]

/-- The result, the store and the trace after `HandleOrders` do not depend on
the log the call started with. -/
lemma HandleOrders_logged_irrelevant {S : Type} (u : Bytes → Except String Order)
    (h : Handlers S) (msg : Message) (w : World S) (l : List String) :
    (HandleOrders u h msg { w with logged := l }).1 = (HandleOrders u h msg w).1 ∧
    (HandleOrders u h msg { w with logged := l }).2.store = (HandleOrders u h msg w).2.store ∧
    (HandleOrders u h msg { w with logged := l }).2.calls = (HandleOrders u h msg w).2.calls := by
  unfold HandleOrders
  cases u msg.Data with
  | error e => simp
  | ok o => by_cases h1 : msg.MsgType = "NEW_ORDER" <;> by_cases h2 : msg.MsgType = "ADD_ORDER" <;>
      simp [h1, h2]

/-- C1: when the payload of a message does not decode as an Order, whatever the
message type, `HandleOrders` returns the decode error (a non-nil error), invokes
neither `newOrder` nor `addOrder` (the trace of calls is unchanged) and leaves the
store unchanged; the only effect is the logged error line. A message handled next
then gives the same result, the same store and the same calls as if the malformed
message had never been received. -/
theorem HandleOrders_malformed_dropped {S : Type} (u : Bytes → Except String Order)
    (h : Handlers S) (msg next : Message) (w : World S) (err : String)
    (hbad : u msg.Data = Except.error err) :
    (HandleOrders u h msg w).1 = some err ∧
    (HandleOrders u h msg w).2.calls = w.calls ∧
    (HandleOrders u h msg w).2.store = w.store ∧
    (HandleOrders u h msg w).2.logged = w.logged ++ [err] ∧
    (HandleOrders u h next (HandleOrders u h msg w).2).1 = (HandleOrders u h next w).1 ∧
    (HandleOrders u h next (HandleOrders u h msg w).2).2.store
      = (HandleOrders u h next w).2.store ∧
    (HandleOrders u h next (HandleOrders u h msg w).2).2.calls
      = (HandleOrders u h next w).2.calls := by
  rw [HandleOrders_of_error u h msg w err hbad]
  refine ⟨rfl, rfl, rfl, rfl, ?_⟩
  exact HandleOrders_logged_irrelevant u h next w (w.logged ++ [err])

/-- Witness of C1: an empty payload under type `NEW_ORDER`, followed by a valid
`NEW_ORDER` message. -/
theorem HandleOrders_malformed_dropped_witness :
    sampleUnmarshal (Message.mk "NEW_ORDER" []).Data
      = Except.error "unexpected end of JSON input" ∧
    ((HandleOrders sampleUnmarshal sampleHandlers ⟨"NEW_ORDER", []⟩ emptyWorld).1
      = some "unexpected end of JSON input" ∧
    (HandleOrders sampleUnmarshal sampleHandlers ⟨"NEW_ORDER", []⟩ emptyWorld).2.calls
      = emptyWorld.calls ∧
    (HandleOrders sampleUnmarshal sampleHandlers ⟨"NEW_ORDER", []⟩ emptyWorld).2.store
      = emptyWorld.store ∧
    (HandleOrders sampleUnmarshal sampleHandlers ⟨"NEW_ORDER", []⟩ emptyWorld).2.logged
      = emptyWorld.logged ++ ["unexpected end of JSON input"] ∧
    (HandleOrders sampleUnmarshal sampleHandlers ⟨"NEW_ORDER", [123, 125]⟩
        (HandleOrders sampleUnmarshal sampleHandlers ⟨"NEW_ORDER", []⟩ emptyWorld).2).1
      = (HandleOrders sampleUnmarshal sampleHandlers ⟨"NEW_ORDER", [123, 125]⟩ emptyWorld).1 ∧
    (HandleOrders sampleUnmarshal sampleHandlers ⟨"NEW_ORDER", [123, 125]⟩
        (HandleOrders sampleUnmarshal sampleHandlers ⟨"NEW_ORDER", []⟩ emptyWorld).2).2.store
      = (HandleOrders sampleUnmarshal sampleHandlers ⟨"NEW_ORDER", [123, 125]⟩
          emptyWorld).2.store ∧
    (HandleOrders sampleUnmarshal sampleHandlers ⟨"NEW_ORDER", [123, 125]⟩
        (HandleOrders sampleUnmarshal sampleHandlers ⟨"NEW_ORDER", []⟩ emptyWorld).2).2.calls
      = (HandleOrders sampleUnmarshal sampleHandlers ⟨"NEW_ORDER", [123, 125]⟩
          emptyWorld).2.calls) :=
  ⟨rfl, HandleOrders_malformed_dropped sampleUnmarshal sampleHandlers ⟨"NEW_ORDER", []⟩
    ⟨"NEW_ORDER", [123, 125]⟩ emptyWorld "unexpected end of JSON input" rfl⟩

/-- C2: when the payload decodes to an order `o`, a `NEW_ORDER` message makes
`HandleOrders` invoke `newOrder` exactly once, on `o`, and never `addOrder` (the
trace grows by the single call `newOrder o`, and the store is the one `newOrder`
leaves); an `ADD_ORDER` message makes it invoke `addOrder` exactly once, on `o`,
and never `newOrder`. -/
theorem HandleOrders_dispatch {S : Type} (u : Bytes → Except String Order)
    (h : Handlers S) (msg : Message) (w : World S) (o : Order)
    (hok : u msg.Data = Except.ok o) :
    (msg.MsgType = "NEW_ORDER" →
      (HandleOrders u h msg w).2.calls = w.calls ++ [Call.newOrder o] ∧
      (HandleOrders u h msg w).2.store = (h.newOrder o w.store).1) ∧
    (msg.MsgType = "ADD_ORDER" →
      (HandleOrders u h msg w).2.calls = w.calls ++ [Call.addOrder o] ∧
      (HandleOrders u h msg w).2.store = (h.addOrder o w.store).1) := by
  constructor
  · intro ht
    simp [HandleOrders, hok, ht]
  · intro ht
    simp [HandleOrders, hok, ht]

/-- Witness of C2: an empty JSON object sent as `NEW_ORDER` and as `ADD_ORDER`. -/
theorem HandleOrders_dispatch_witness :
    sampleUnmarshal (Message.mk "NEW_ORDER" [123, 125]).Data = Except.ok zeroOrder ∧
    (HandleOrders sampleUnmarshal sampleHandlers ⟨"NEW_ORDER", [123, 125]⟩ emptyWorld).2.calls
      = [Call.newOrder zeroOrder] ∧
    (HandleOrders sampleUnmarshal sampleHandlers ⟨"ADD_ORDER", [123, 125]⟩ emptyWorld).2.calls
      = [Call.addOrder zeroOrder] :=
  ⟨rfl,
   ((HandleOrders_dispatch sampleUnmarshal sampleHandlers ⟨"NEW_ORDER", [123, 125]⟩
      emptyWorld zeroOrder rfl).1 rfl).1,
   ((HandleOrders_dispatch sampleUnmarshal sampleHandlers ⟨"ADD_ORDER", [123, 125]⟩
      emptyWorld zeroOrder rfl).2 rfl).1⟩

/-- A decoded message whose type is neither `NEW_ORDER` nor `ADD_ORDER` falls
through both tests: nothing is returned, nothing changes. -/
lemma HandleOrders_of_other {S : Type} (u : Bytes → Except String Order) (h : Handlers S)
    (msg : Message) (w : World S) (o : Order) (hok : u msg.Data = Except.ok o)
    (h1 : msg.MsgType ≠ "NEW_ORDER") (h2 : msg.MsgType ≠ "ADD_ORDER") :
    HandleOrders u h msg w = (none, w) := by
  simp [HandleOrders, hok, h1, h2]

/-- C3, as the claim states it, fails: on a decodable message of type
`CANCEL_ORDER`, and on one of type `RECOVER`, `HandleOrders` invokes no handler at
all; the trace of calls stays empty and the world is returned as it was. -/
theorem HandleOrders_cancel_recover_no_handler :
    sampleUnmarshal (Message.mk "CANCEL_ORDER" [123, 125]).Data = Except.ok zeroOrder ∧
    (HandleOrders sampleUnmarshal sampleHandlers ⟨"CANCEL_ORDER", [123, 125]⟩
      emptyWorld).2.calls = [] ∧
    (HandleOrders sampleUnmarshal sampleHandlers ⟨"RECOVER", [123, 125]⟩
      emptyWorld).2.calls = [] ∧
    HandleOrders sampleUnmarshal sampleHandlers ⟨"CANCEL_ORDER", [123, 125]⟩ emptyWorld
      = (none, emptyWorld) ∧
    HandleOrders sampleUnmarshal sampleHandlers ⟨"RECOVER", [123, 125]⟩ emptyWorld
      = (none, emptyWorld) := by
  refine ⟨rfl, rfl, rfl, rfl, rfl⟩

/-- C3, amended: when the payload decodes to an order and the message type is
`CANCEL_ORDER` or `RECOVER`, `HandleOrders` invokes no handler, leaves the store
and the log unchanged and returns nil: only `NEW_ORDER` and `ADD_ORDER` are
dispatched. -/
theorem HandleOrders_cancel_recover_ignored {S : Type} (u : Bytes → Except String Order)
    (h : Handlers S) (msg : Message) (w : World S) (o : Order)
    (hok : u msg.Data = Except.ok o)
    (ht : msg.MsgType = "CANCEL_ORDER" ∨ msg.MsgType = "RECOVER") :
    (HandleOrders u h msg w).1 = none ∧
    (HandleOrders u h msg w).2.calls = w.calls ∧
    (HandleOrders u h msg w).2.store = w.store ∧
    (HandleOrders u h msg w).2 = w := by
  have h1 : msg.MsgType ≠ "NEW_ORDER" := by
    rcases ht with ht | ht <;> rw [ht] <;> decide
  have h2 : msg.MsgType ≠ "ADD_ORDER" := by
    rcases ht with ht | ht <;> rw [ht] <;> decide
  rw [HandleOrders_of_other u h msg w o hok h1 h2]
  exact ⟨rfl, rfl, rfl, rfl⟩

/-- Witness of C3, amended: an empty JSON object sent as `RECOVER` after one
order was already handled. -/
theorem HandleOrders_cancel_recover_ignored_witness :
    sampleUnmarshal (Message.mk "RECOVER" [123, 125]).Data = Except.ok zeroOrder ∧
    ((Message.mk "RECOVER" [123, 125]).MsgType = "CANCEL_ORDER" ∨
      (Message.mk "RECOVER" [123, 125]).MsgType = "RECOVER") ∧
    (HandleOrders sampleUnmarshal sampleHandlers ⟨"RECOVER", [123, 125]⟩
      ⟨[zeroOrder], [], [Call.newOrder zeroOrder]⟩).1 = none ∧
    (HandleOrders sampleUnmarshal sampleHandlers ⟨"RECOVER", [123, 125]⟩
      ⟨[zeroOrder], [], [Call.newOrder zeroOrder]⟩).2.calls = [Call.newOrder zeroOrder] ∧
    (HandleOrders sampleUnmarshal sampleHandlers ⟨"RECOVER", [123, 125]⟩
      ⟨[zeroOrder], [], [Call.newOrder zeroOrder]⟩).2.store = [zeroOrder] ∧
    (HandleOrders sampleUnmarshal sampleHandlers ⟨"RECOVER", [123, 125]⟩
      ⟨[zeroOrder], [], [Call.newOrder zeroOrder]⟩).2
      = ⟨[zeroOrder], [], [Call.newOrder zeroOrder]⟩ :=
  ⟨rfl, Or.inr rfl,
   HandleOrders_cancel_recover_ignored sampleUnmarshal sampleHandlers ⟨"RECOVER", [123, 125]⟩
     ⟨[zeroOrder], [], [Call.newOrder zeroOrder]⟩ zeroOrder rfl (Or.inr rfl)⟩

/-- C4, as the claim states it, fails: on a decodable message of the unknown
type `FOO`, `HandleOrders` returns nil and invokes no handler, but it writes no
log line either; the log is as empty after the call as before. -/
theorem HandleOrders_unknown_type_not_logged :
    sampleUnmarshal (Message.mk "FOO" [123, 125]).Data = Except.ok zeroOrder ∧
    (HandleOrders sampleUnmarshal sampleHandlers ⟨"FOO", [123, 125]⟩ emptyWorld).1 = none ∧
    (HandleOrders sampleUnmarshal sampleHandlers ⟨"FOO", [123, 125]⟩ emptyWorld).2.logged
      = [] := by
  refine ⟨rfl, rfl, rfl⟩

/-- C4, amended: when the payload decodes to an order and the message type is
neither `NEW_ORDER` nor `ADD_ORDER`, `HandleOrders` invokes no handler, leaves the
store unchanged, returns nil and writes nothing to the log. -/
theorem HandleOrders_unknown_type_ignored {S : Type} (u : Bytes → Except String Order)
    (h : Handlers S) (msg : Message) (w : World S) (o : Order)
    (hok : u msg.Data = Except.ok o)
    (h1 : msg.MsgType ≠ "NEW_ORDER") (h2 : msg.MsgType ≠ "ADD_ORDER") :
    (HandleOrders u h msg w).1 = none ∧
    (HandleOrders u h msg w).2.calls = w.calls ∧
    (HandleOrders u h msg w).2.store = w.store ∧
    (HandleOrders u h msg w).2.logged = w.logged := by
  rw [HandleOrders_of_other u h msg w o hok h1 h2]
  exact ⟨rfl, rfl, rfl, rfl⟩

/-- Witness of C4, amended: an empty JSON object sent under the type `FOO`. -/
theorem HandleOrders_unknown_type_ignored_witness :
    sampleUnmarshal (Message.mk "FOO" [123, 125]).Data = Except.ok zeroOrder ∧
    (Message.mk "FOO" [123, 125]).MsgType ≠ "NEW_ORDER" ∧
    (Message.mk "FOO" [123, 125]).MsgType ≠ "ADD_ORDER" ∧
    (HandleOrders sampleUnmarshal sampleHandlers ⟨"FOO", [123, 125]⟩
      ⟨[zeroOrder], ["x"], []⟩).1 = none ∧
    (HandleOrders sampleUnmarshal sampleHandlers ⟨"FOO", [123, 125]⟩
      ⟨[zeroOrder], ["x"], []⟩).2.calls = [] ∧
    (HandleOrders sampleUnmarshal sampleHandlers ⟨"FOO", [123, 125]⟩
      ⟨[zeroOrder], ["x"], []⟩).2.store = [zeroOrder] ∧
    (HandleOrders sampleUnmarshal sampleHandlers ⟨"FOO", [123, 125]⟩
      ⟨[zeroOrder], ["x"], []⟩).2.logged = ["x"] :=
  ⟨rfl, by decide, by decide,
   HandleOrders_unknown_type_ignored sampleUnmarshal sampleHandlers ⟨"FOO", [123, 125]⟩
     ⟨[zeroOrder], ["x"], []⟩ zeroOrder rfl (by decide) (by decide)⟩

/-- C10: `HandleOrders` returns nil exactly when the payload decodes, whatever the
message type and whatever the handlers return, and it returns the error `err`
exactly when decoding fails with `err`: the error a handler returns never reaches
the caller. -/
theorem HandleOrders_error_iff_decode_error {S : Type} (u : Bytes → Except String Order)
    (h : Handlers S) (msg : Message) (w : World S) :
    ((HandleOrders u h msg w).1 = none ↔ ∃ o, u msg.Data = Except.ok o) ∧
    (∀ err, (HandleOrders u h msg w).1 = some err ↔ u msg.Data = Except.error err) := by
  unfold HandleOrders
  cases hu : u msg.Data with
  | error e => simp
  | ok o =>
    by_cases h1 : msg.MsgType = "NEW_ORDER" <;> by_cases h2 : msg.MsgType = "ADD_ORDER" <;>
      simp [h1, h2]

/-! ## Theorems about `InitEngine` -/

/-- Once the singleton is set, `InitEngine` returns it with a nil error and
changes nothing, whatever connection it is given. -/
lemma InitEngine_of_some (c : Nat) (g : Pkg) (e : Nat) (he : g.engine = some e) :
    InitEngine c g = ((e, none), g) := by
  simp [InitEngine, he]

/-- Once the singleton is set, every call of a sequence returns it and the
package state stays the same. -/
lemma initAll_of_some (cs : List Nat) (g : Pkg) (e : Nat) (he : g.engine = some e) :
    initAll cs g = (List.replicate cs.length (e, none), g) := by
  induction cs with
  | nil => rfl
  | cons c cs ih => simp [initAll, InitEngine_of_some c g e he, ih, List.replicate_succ]

/-- C5: starting with the singleton unset, in every sequence of `InitEngine`
calls with arbitrary connections each call returns a nil error and the pointer
the first call returned; the package state after the whole sequence is the state
the first call left, so no later call replaces or modifies the singleton; and
the engine at that pointer holds the connection of the first call and the mutex
allocated by it. -/
theorem InitEngine_idempotent (c : Nat) (cs : List Nat) (g : Pkg) (hnil : g.engine = none) :
    (∀ r ∈ (initAll (c :: cs) g).1, r = (InitEngine c g).1) ∧
    ((initAll (c :: cs) g).1).length = cs.length + 1 ∧
    (InitEngine c g).1 = (g.heap.length + 1, none) ∧
    (initAll (c :: cs) g).2 = (InitEngine c g).2 ∧
    (initAll (c :: cs) g).2.engine = some (g.heap.length + 1) ∧
    (initAll (c :: cs) g).2.heap[g.heap.length + 1]? = some (Cell.engine c g.heap.length) ∧
    (initAll (c :: cs) g).2.heap[g.heap.length]? = some Cell.mutex := by
  have h1 : InitEngine c g
      = ((g.heap.length + 1, none),
         { engine := some (g.heap.length + 1),
           heap := g.heap ++ [Cell.mutex, Cell.engine c g.heap.length] }) := by
    simp [InitEngine, hnil]
  have h2 : initAll (c :: cs) g
      = ((g.heap.length + 1, none) :: List.replicate cs.length (g.heap.length + 1, none),
         { engine := some (g.heap.length + 1),
           heap := g.heap ++ [Cell.mutex, Cell.engine c g.heap.length] }) := by
    simp only [initAll, h1]
    rw [initAll_of_some cs _ (g.heap.length + 1) rfl]
  rw [h2, h1]
  refine ⟨?_, by simp, rfl, rfl, rfl, ?_, ?_⟩
  · intro r hr
    simp only [List.mem_cons, List.mem_replicate] at hr
    rcases hr with hr | ⟨_, hr⟩ <;> exact hr
  · show (g.heap ++ [Cell.mutex, Cell.engine c g.heap.length])[g.heap.length + 1]? = _
    rw [List.getElem?_append_right (Nat.le_succ _)]
    simp
  · show (g.heap ++ [Cell.mutex, Cell.engine c g.heap.length])[g.heap.length]? = _
    rw [List.getElem?_append_right (Nat.le_refl _)]
    simp

/-- Witness of C5: three calls at program start, with the connections 7, 8, 9. -/
theorem InitEngine_idempotent_witness :
    startPkg.engine = none ∧
    ((∀ r ∈ (initAll (7 :: [8, 9]) startPkg).1, r = (InitEngine 7 startPkg).1) ∧
    ((initAll (7 :: [8, 9]) startPkg).1).length = [8, 9].length + 1 ∧
    (InitEngine 7 startPkg).1 = (startPkg.heap.length + 1, none) ∧
    (initAll (7 :: [8, 9]) startPkg).2 = (InitEngine 7 startPkg).2 ∧
    (initAll (7 :: [8, 9]) startPkg).2.engine = some (startPkg.heap.length + 1) ∧
    (initAll (7 :: [8, 9]) startPkg).2.heap[startPkg.heap.length + 1]?
      = some (Cell.engine 7 startPkg.heap.length) ∧
    (initAll (7 :: [8, 9]) startPkg).2.heap[startPkg.heap.length]? = some Cell.mutex) :=
  ⟨rfl, InitEngine_idempotent 7 [8, 9] startPkg rfl⟩

/-! ## Theorems about `Engine.publishEngineResponse` -/

/-- When marshalling and publishing both succeed, `publishEngineResponse` returns
nil after handing the transport exactly one message, on the channel `erPub`, with
the default exchange, the name of the `engineResponse` queue as routing key and
the marshalled response as body. -/
lemma publishEngineResponse_success {R : Type} (env : Rabbit R) (res : R) (w : Bus)
    (bytes : Bytes) (hm : env.marshal res = Except.ok bytes)
    (hp : env.Publish ⟨env.GetChannel "erPub", "",
      env.GetQueue (env.GetChannel "erPub") "engineResponse", false, false,
      ⟨"text/json", bytes⟩⟩ = none) :
    publishEngineResponse env res w
      = (Outcome.returned none,
         { w with published := w.published ++ [⟨env.GetChannel "erPub", "",
            env.GetQueue (env.GetChannel "erPub") "engineResponse", false, false,
            ⟨"text/json", bytes⟩⟩] }) := by
  simp [publishEngineResponse, hm, hp]

/-- When marshalling fails, or marshalling succeeds and the transport refuses the
message, `publishEngineResponse` ends in `log.Fatalf`: the process exits with
status 1, whatever the response and the world, and nothing is published. -/
lemma publishEngineResponse_failure_exits {R : Type} (env : Rabbit R) (res : R) (w : Bus) :
    (∀ err, env.marshal res = Except.error err →
      publishEngineResponse env res w
        = (Outcome.exited 1,
           { w with logged := w.logged ++ ["Failed to marshal Engine Response: " ++ err] })) ∧
    (∀ bytes err, env.marshal res = Except.ok bytes →
      env.Publish ⟨env.GetChannel "erPub", "",
        env.GetQueue (env.GetChannel "erPub") "engineResponse", false, false,
        ⟨"text/json", bytes⟩⟩ = some err →
      publishEngineResponse env res w
        = (Outcome.exited 1,
           { w with logged := w.logged ++ ["Failed to publish order: " ++ err] })) := by
  constructor
  · intro err hm
    simp [publishEngineResponse, hm, andThen, logFatalf]
  · intro bytes err hm hp
    simp [publishEngineResponse, hm, hp, andThen, logFatalf]

/-- C6, evaluated where the transport refuses the message: the call of
`publishEngineResponse` does not return an error to its caller. It logs the line
and the process exits with status 1 in `log.Fatalf`; the `return errors.New(...)`
statement after it is never reached, and nothing is published. -/
theorem publishEngineResponse_publish_failure_exits :
    closedRabbit.Publish ⟨"erPub", "", "engineResponse", false, false,
      ⟨"text/json", [123, 125]⟩⟩ = some "channel/connection is not open" ∧
    publishEngineResponse closedRabbit [123, 125] emptyBus
      = (Outcome.exited 1,
         ⟨["Failed to publish order: channel/connection is not open"], []⟩) ∧
    (∀ e : Option String,
      (publishEngineResponse closedRabbit [123, 125] emptyBus).1 ≠ Outcome.returned e) := by
  refine ⟨rfl, rfl, ?_⟩
  intro e hcontra
  have hexit : (publishEngineResponse closedRabbit [123, 125] emptyBus).1
      = Outcome.exited 1 := rfl
  rw [hexit] at hcontra
  cases hcontra

/-! ## Theorems about `Engine.SubscribeResponseQueue` -/

/-- C7: for every finite sequence of deliveries, the loop of
`SubscribeResponseQueue` launches the callback once for each body that decodes,
on the decoded value and in delivery order, launches nothing for a body that
fails to decode, and goes on after a failure: the launched arguments are the
ones already launched followed by the deliveries filtered and mapped by the
decoder; started with nothing launched, they are exactly the deliveries filtered
and mapped by the decoder. -/
theorem consumeLoop_launches_decoded {R : Type} (u : Bytes → Except String R)
    (msgs : List Delivery) (w : SubWorld R) :
    (consumeLoop u msgs w).launched = w.launched ++ msgs.filterMap (decoded u) ∧
    (consumeLoop u msgs ⟨[], []⟩).launched = msgs.filterMap (decoded u) := by
  have key : ∀ (ms : List Delivery) (v : SubWorld R),
      (consumeLoop u ms v).launched = v.launched ++ ms.filterMap (decoded u) := by
    intro ms
    induction ms with
    | nil => intro v; simp [consumeLoop]
    | cons d rest ih =>
      intro v
      unfold consumeLoop
      cases hd : u d.Body with
      | error err =>
        simp only [ih]
        simp [List.filterMap_cons, decoded, hd]
      | ok res =>
        simp only [ih]
        simp [List.filterMap_cons, decoded, hd]
  refine ⟨key msgs w, ?_⟩
  simp [key]

/-! ## Theorems about `NewOrderAddedWebsocketMessage` -/

/-- The status the data-model section assigns is `OPEN` only when nothing is
filled. -/
lemma statusOf_eq_open (filledAmount amount : Int) :
    statusOf filledAmount amount = "OPEN" ↔ filledAmount = 0 := by
  unfold statusOf
  by_cases h0 : filledAmount = 0
  · simp [h0]
  · by_cases h1 : filledAmount < amount
    · simp only [h0, h1, if_true, if_false, iff_false]
      decide
    · simp only [h0, h1, if_false, iff_false]
      decide

/-- C9, as the claim states it, fails: for an order of amount 5, the payload
built with `filled = -1` has a negative filled amount, the one built with
`filled = 6` has a filled amount above the amount, and the one built with
`filled = 2` has status `OPEN` although 2 of 5 filled is `PARTIAL_FILLED`. -/
theorem NewOrderAdded_payload_breaks_invariant :
    ¬ OrderInvariant
      (NewOrderAddedWebsocketMessage sampleTypesEnv sampleOrder samplePair (-1)).Event.Payload ∧
    ¬ OrderInvariant
      (NewOrderAddedWebsocketMessage sampleTypesEnv sampleOrder samplePair 6).Event.Payload ∧
    (NewOrderAddedWebsocketMessage sampleTypesEnv sampleOrder samplePair 2).Event.Payload.Status
      = "OPEN" ∧
    statusOf
      (NewOrderAddedWebsocketMessage sampleTypesEnv sampleOrder samplePair
        2).Event.Payload.FilledAmount
      (NewOrderAddedWebsocketMessage sampleTypesEnv sampleOrder samplePair
        2).Event.Payload.Amount
      = "PARTIAL_FILLED" := by
  refine ⟨by decide, by decide, rfl, by decide⟩

/-- C9, amended: for every order, pair and `filled`, and whatever `Process` does,
the payload of `NewOrderAddedWebsocketMessage` has `filled` itself as filled
amount, unchecked, and the status `OPEN`. Hence it satisfies
`0 ≤ filledAmount ≤ amount` exactly when `0 ≤ filled` and `filled` is at most the
amount left by `Process`, and its status is the one determined by its filled
amount exactly when `filled = 0`. -/
theorem NewOrderAdded_payload (env : TypesEnv) (o : Order) (p : Pair) (filled : Int) :
    (NewOrderAddedWebsocketMessage env o p filled).Event.Payload.FilledAmount = filled ∧
    (NewOrderAddedWebsocketMessage env o p filled).Event.Payload.Status = "OPEN" ∧
    (NewOrderAddedWebsocketMessage env o p filled).Event.Payload.Amount
      = (env.Process o p).Amount ∧
    (OrderInvariant (NewOrderAddedWebsocketMessage env o p filled).Event.Payload ↔
      0 ≤ filled ∧ filled ≤ (env.Process o p).Amount) ∧
    ((NewOrderAddedWebsocketMessage env o p filled).Event.Payload.Status
        = statusOf (NewOrderAddedWebsocketMessage env o p filled).Event.Payload.FilledAmount
            (NewOrderAddedWebsocketMessage env o p filled).Event.Payload.Amount ↔
      filled = 0) := by
  refine ⟨rfl, rfl, rfl, Iff.rfl, ?_⟩
  show ("OPEN" = statusOf filled (env.Process o p).Amount) ↔ filled = 0
  rw [eq_comm]
  exact statusOf_eq_open filled (env.Process o p).Amount

end Amp
